import Mathlib

/-!
Verification development for the todo-frontend session/auth subsystem.

Shallow embedding of:
- the session store (`AuthProvider` in src/lib/auth-context.tsx): the mount
  effect, `login`, `signup` and `logout`, modelled as explicit state-update
  traces over an `AuthState` record that also carries the persisted `token`
  cookie;
- the authenticated request client (src/lib/api.ts): the request builders of
  `taskApi` and `authApi` and the axios request interceptor that attaches the
  `Authorization` header from the cookie;
- the dashboard task filtering (src/app/dashboard/page.tsx);
- the `useSession` shim (the better-auth compatible module).

Network effects are modelled by passing the backend outcome (`NetResult`) as
an explicit argument; JS truthiness of strings is modelled explicitly where
the source branches on it.
-/

set_option autoImplicit false

namespace TodoApp

/-- JS truthiness of an optional string, as in `if (token) ...` applied to
the result of `Cookies.get`: `undefined` and the empty string are falsy,
every other string is truthy. -/
def truthyStr : Option String → Bool
  | none => false
  | some s => !(s == "")

/-- User identity record (interface `User` in src/lib/auth-context.tsx). -/
structure User where
  id : String
  email : String
  createdAt : Option String
  updatedAt : Option String
  created_at : Option String
  updated_at : Option String
deriving DecidableEq

/-- The persisted cookie named `token`: its value and the expiry in days it
was set with (the source always writes it with `expires: 7`). -/
structure TokenCookie where
  value : String
  expiresDays : Nat
deriving DecidableEq

/-- In-memory session store state (the `useState` fields of `AuthProvider`)
together with the persisted `token` cookie, the only cookie this client
reads or writes. -/
structure AuthState where
  user : Option User
  token : Option String
  isLoading : Bool
  cookie : Option TokenCookie
deriving DecidableEq

/-- Value returned by `Cookies.get` applied to the `token` cookie. -/
def cookieValue (s : AuthState) : Option String :=
  Option.map TokenCookie.value s.cookie

/-- Payload of `GET /api/auth/session` (the `response.data` the client
inspects: it only looks at `user`). -/
structure SessionData where
  user : Option User
deriving DecidableEq

/-- Payload of the sign-in / sign-up endpoints (the `response.data` fields
the client inspects: `user` and `access_token`). -/
structure SigninData where
  user : Option User
  access_token : Option String
deriving DecidableEq

/-- Outcome of one HTTP round trip as the calling code observes it: axios
resolves with a payload, or rejects. Transport failures and non-2xx statuses
both reject, so both land in the same `failure` constructor, exactly as both
land in the same `catch` block in the source. -/
inductive NetResult (α : Type) where
  | success (data : α)
  | failure
deriving DecidableEq

/-- The guard `response.data.user && response.data.access_token` of the
success branches of login and signup: the user object must be present and
the token string present and truthy. -/
def signinOk (d : SigninData) : Bool :=
  d.user.isSome && truthyStr d.access_token

/-- State of `AuthProvider` at mount: `user` and `token` start as `null`,
`isLoading` starts as `true`, with whatever `token` cookie persists. -/
def initialState (c : Option TokenCookie) : AuthState :=
  { user := none, token := none, isLoading := true, cookie := c }

/-- Run of the mount-time effect: the state sequence it passes through, its
final state, whether `GET /api/auth/session` was issued, and the state in
force while that request was in flight (after the synchronous part of the
effect finished), if a request was issued at all. -/
structure InitRun where
  trace : List AuthState
  final : AuthState
  sessionCalled : Bool
  pending : Option AuthState
deriving DecidableEq

/-- The mount effect of `AuthProvider` (src/lib/auth-context.tsx, lines
44-68): read the `token` cookie. If it is absent (or empty, hence falsy),
only drop `isLoading`. If present, set `token` from it, start
`validateToken` — which awaits `GET /api/auth/session` — and, because that
call is not awaited, set `isLoading` to `false` while the request is still
in flight; once the response arrives, either set `user` from it, or remove
the cookie and clear the in-memory token (on a missing user as well as on a
rejected call). -/
def initRun (s : AuthState) (resp : NetResult SessionData) : InitRun :=
  match cookieValue s with
  | none =>
      let s1 := { s with isLoading := false }
      { trace := [s, s1], final := s1, sessionCalled := false, pending := none }
  | some storedToken =>
      if storedToken = "" then
        let s1 := { s with isLoading := false }
        { trace := [s, s1], final := s1, sessionCalled := false, pending := none }
      else
        let s1 := { s with token := some storedToken }
        let s2 := { s1 with isLoading := false }
        match resp with
        | NetResult.success d =>
            if d.user.isSome then
              let s3 := { s2 with user := d.user }
              { trace := [s, s1, s2, s3], final := s3,
                sessionCalled := true, pending := some s2 }
            else
              let s3 := { s2 with cookie := none }
              let s4 := { s3 with token := none }
              { trace := [s, s1, s2, s3, s4], final := s4,
                sessionCalled := true, pending := some s2 }
        | NetResult.failure =>
            let s3 := { s2 with cookie := none }
            let s4 := { s3 with token := none }
            { trace := [s, s1, s2, s3, s4], final := s4,
              sessionCalled := true, pending := some s2 }

/-- Result of one store operation: the state sequence it runs through
(starting at the pre-state) and the error it throws to its caller, if
any. -/
structure OpRun where
  trace : List AuthState
  final : AuthState
  error : Option String
deriving DecidableEq

/-- `login` (src/lib/auth-context.tsx, lines 70-88): set `isLoading`, await
the sign-in call; if the response carries a user and a truthy access token,
set `user`, persist the token cookie for 7 days, set `token`; otherwise (a
malformed success as well as a rejected call) throw the generic
invalid-credentials error. The `finally` clause drops `isLoading` on every
path. -/
def login (s : AuthState) (email password : String)
    (resp : NetResult SigninData) : OpRun :=
  let s1 := { s with isLoading := true }
  match resp with
  | NetResult.success d =>
      if signinOk d then
        let tok := d.access_token.getD ""
        let s2 := { s1 with user := d.user }
        let s3 := { s2 with cookie := some { value := tok, expiresDays := 7 } }
        let s4 := { s3 with token := some tok }
        let s5 := { s4 with isLoading := false }
        { trace := [s, s1, s2, s3, s4, s5], final := s5, error := none }
      else
        let s2 := { s1 with isLoading := false }
        { trace := [s, s1, s2], final := s2,
          error := some "Invalid email or password" }
  | NetResult.failure =>
      let s2 := { s1 with isLoading := false }
      { trace := [s, s1, s2], final := s2,
        error := some "Invalid email or password" }

/-- `signup` (src/lib/auth-context.tsx, lines 90-108): like `login` against
the sign-up endpoint, except that a success response missing the user/token
pair falls back to awaiting `login` with the same credentials
(`loginResp` is the backend outcome of that nested call); if the fallback
throws, the catch converts it into the generic signup error. Both the
nested and the outer `finally` drop `isLoading`. -/
def signup (s : AuthState) (email password : String)
    (resp : NetResult SigninData) (loginResp : NetResult SigninData) : OpRun :=
  let s1 := { s with isLoading := true }
  match resp with
  | NetResult.success d =>
      if signinOk d then
        let tok := d.access_token.getD ""
        let s2 := { s1 with user := d.user }
        let s3 := { s2 with cookie := some { value := tok, expiresDays := 7 } }
        let s4 := { s3 with token := some tok }
        let s5 := { s4 with isLoading := false }
        { trace := [s, s1, s2, s3, s4, s5], final := s5, error := none }
      else
        let inner := login s1 email password loginResp
        let fin := { inner.final with isLoading := false }
        match inner.error with
        | none =>
            { trace := s :: inner.trace ++ [fin], final := fin, error := none }
        | some _ =>
            { trace := s :: inner.trace ++ [fin], final := fin,
              error := some "Signup failed" }
  | NetResult.failure =>
      let s2 := { s1 with isLoading := false }
      { trace := [s, s1, s2], final := s2, error := some "Signup failed" }

/-- `logout` (src/lib/auth-context.tsx, lines 110-120): await the sign-out
call; whether it resolves or rejects (the rejection is only logged), the
`finally` clause removes the cookie, clears the in-memory token and clears
the user. No error ever reaches the caller. -/
def logout (s : AuthState) (resp : NetResult Unit) : OpRun :=
  let s1 := { s with cookie := none }
  let s2 := { s1 with token := none }
  let s3 := { s2 with user := none }
  match resp with
  | NetResult.success _ =>
      { trace := [s, s1, s2, s3], final := s3, error := none }
  | NetResult.failure =>
      { trace := [s, s1, s2, s3], final := s3, error := none }

/-- A user-triggered store operation, tagged with the backend outcomes it
will observe. -/
inductive UserOp where
  | loginOp (email password : String) (resp : NetResult SigninData)
  | signupOp (email password : String) (resp loginResp : NetResult SigninData)
  | logoutOp (resp : NetResult Unit)

/-- Dispatch a user operation against the store. -/
def runUserOp (s : AuthState) : UserOp → OpRun
  | UserOp.loginOp e p r => login s e p r
  | UserOp.signupOp e p r lr => signup s e p r lr
  | UserOp.logoutOp r => logout s r

/-- Quiescent reachable states of the session store: a boot (the mount
effect running once from the initial state, over any persisted cookie and
any session outcome) followed by any sequence of completed login, signup
and logout operations. -/
inductive ReachableQ : AuthState → Prop where
  | boot (c : Option TokenCookie) (resp : NetResult SessionData) :
      ReachableQ (initRun (initialState c) resp).final
  | step (s : AuthState) (op : UserOp) :
      ReachableQ s → ReachableQ (runUserOp s op).final

/-- Query parameters accepted by the task-list endpoint. -/
structure TaskQueryParams where
  status : Option String
  sort : Option String
  order : Option String
  skip : Option Int
  limit : Option Int
deriving DecidableEq

/-- Flat JSON value, enough for every request body this client sends. -/
inductive JsonVal where
  | jbool (b : Bool)
  | jstr (s : String)
deriving DecidableEq

/-- An outbound request as configured through the axios wrapper: method,
path, optional query parameters, JSON body (a flat object; keys whose JS
value is `undefined` are omitted by serialization) and the `Authorization`
header, if one has been attached. The builders in `taskApi` and `authApi`
produce it with no `Authorization` header; the interceptor may add one. -/
structure HttpRequest where
  method : String
  path : String
  params : Option TaskQueryParams
  body : Option (List (String × JsonVal))
  authorization : Option String
deriving DecidableEq

/-- Argument of `createTask` as passed by callers. -/
structure TaskCreateBody where
  title : String
  description : Option String
  completed : Option Bool
deriving DecidableEq

/-- Argument of `updateTask` (all fields optional). -/
structure TaskUpdateBody where
  title : Option String
  description : Option String
  completed : Option Bool
deriving DecidableEq

/-- JSON serialization of a create-task body (undefined keys dropped). -/
def taskCreateJson (d : TaskCreateBody) : List (String × JsonVal) :=
  [("title", JsonVal.jstr d.title)]
    ++ (match d.description with
        | some x => [("description", JsonVal.jstr x)]
        | none => [])
    ++ (match d.completed with
        | some b => [("completed", JsonVal.jbool b)]
        | none => [])

/-- JSON serialization of an update-task body (undefined keys dropped). -/
def taskUpdateJson (d : TaskUpdateBody) : List (String × JsonVal) :=
  (match d.title with
   | some x => [("title", JsonVal.jstr x)]
   | none => [])
    ++ (match d.description with
        | some x => [("description", JsonVal.jstr x)]
        | none => [])
    ++ (match d.completed with
        | some b => [("completed", JsonVal.jbool b)]
        | none => [])

namespace taskApi

/-- List tasks: GET on the tasks collection of `userId`. -/
def getTasks (userId : String) (params : Option TaskQueryParams) : HttpRequest :=
  { method := "GET", path := "/api/" ++ userId ++ "/tasks",
    params := params, body := none, authorization := none }

/-- Create a task: POST on the tasks collection of `userId`. -/
def createTask (userId : String) (data : TaskCreateBody) : HttpRequest :=
  { method := "POST", path := "/api/" ++ userId ++ "/tasks",
    params := none, body := some (taskCreateJson data), authorization := none }

/-- Fetch one task. -/
def getTask (userId taskId : String) : HttpRequest :=
  { method := "GET", path := "/api/" ++ userId ++ "/tasks/" ++ taskId,
    params := none, body := none, authorization := none }

/-- Update a task: PUT with a partial body. -/
def updateTask (userId taskId : String) (data : TaskUpdateBody) : HttpRequest :=
  { method := "PUT", path := "/api/" ++ userId ++ "/tasks/" ++ taskId,
    params := none, body := some (taskUpdateJson data), authorization := none }

/-- Delete a task. -/
def deleteTask (userId taskId : String) : HttpRequest :=
  { method := "DELETE", path := "/api/" ++ userId ++ "/tasks/" ++ taskId,
    params := none, body := none, authorization := none }

/-- Toggle completion: PATCH on the complete sub-resource; the `completed`
argument defaults to `true` in the source. -/
def toggleComplete (userId taskId : String) (completed : Bool := true) : HttpRequest :=
  { method := "PATCH",
    path := "/api/" ++ userId ++ "/tasks/" ++ taskId ++ "/complete",
    params := none, body := some [("completed", JsonVal.jbool completed)],
    authorization := none }

/-- Mark a task complete: PATCH on the complete sub-resource with a body
fixed to completed true. -/
def markTaskComplete (userId taskId : String) : HttpRequest :=
  { method := "PATCH",
    path := "/api/" ++ userId ++ "/tasks/" ++ taskId ++ "/complete",
    params := none, body := some [("completed", JsonVal.jbool true)],
    authorization := none }

end taskApi

namespace authApi

/-- Sign in with credentials. -/
def signin (email password : String) : HttpRequest :=
  { method := "POST", path := "/api/auth/signin", params := none,
    body := some [("email", JsonVal.jstr email), ("password", JsonVal.jstr password)],
    authorization := none }

/-- Sign up with credentials. -/
def signup (email password : String) : HttpRequest :=
  { method := "POST", path := "/api/auth/signup", params := none,
    body := some [("email", JsonVal.jstr email), ("password", JsonVal.jstr password)],
    authorization := none }

/-- Sign out the current session. -/
def signout : HttpRequest :=
  { method := "POST", path := "/api/auth/signout", params := none,
    body := none, authorization := none }

/-- Session introspection. -/
def session : HttpRequest :=
  { method := "GET", path := "/api/auth/session", params := none,
    body := none, authorization := none }

/-- Better-auth style sign-in (unused by the store, still part of the
client surface). -/
def signInEmail (email password : String) : HttpRequest :=
  { method := "POST", path := "/api/auth/sign-in/email", params := none,
    body := some [("email", JsonVal.jstr email), ("password", JsonVal.jstr password)],
    authorization := none }

/-- Better-auth style sign-up (unused by the store, still part of the
client surface). -/
def signUpEmail (email password : String) : HttpRequest :=
  { method := "POST", path := "/api/auth/sign-up/email", params := none,
    body := some [("email", JsonVal.jstr email), ("password", JsonVal.jstr password)],
    authorization := none }

end authApi

/-- The axios request interceptor (src/lib/api.ts): read the `token` cookie
at call time; if it is truthy, set the `Authorization` header to the bearer
form of its value, otherwise leave the request untouched. -/
def requestInterceptor : Option String → HttpRequest → HttpRequest
  | some token, config =>
      if token = "" then config
      else { config with authorization := some ("Bearer " ++ token) }
  | none, config => config

/-- One operation of the request client, with its arguments. -/
inductive ApiOp where
  | getTasksOp (userId : String) (params : Option TaskQueryParams)
  | createTaskOp (userId : String) (data : TaskCreateBody)
  | getTaskOp (userId taskId : String)
  | updateTaskOp (userId taskId : String) (data : TaskUpdateBody)
  | deleteTaskOp (userId taskId : String)
  | toggleCompleteOp (userId taskId : String) (completed : Bool)
  | markTaskCompleteOp (userId taskId : String)
  | signinOp (email password : String)
  | signupApiOp (email password : String)
  | signoutOp
  | sessionOp
  | signInEmailOp (email password : String)
  | signUpEmailOp (email password : String)

/-- The request an operation hands to the axios instance, before the
interceptor runs. -/
def buildRequest : ApiOp → HttpRequest
  | ApiOp.getTasksOp u p => taskApi.getTasks u p
  | ApiOp.createTaskOp u d => taskApi.createTask u d
  | ApiOp.getTaskOp u t => taskApi.getTask u t
  | ApiOp.updateTaskOp u t d => taskApi.updateTask u t d
  | ApiOp.deleteTaskOp u t => taskApi.deleteTask u t
  | ApiOp.toggleCompleteOp u t c => taskApi.toggleComplete u t c
  | ApiOp.markTaskCompleteOp u t => taskApi.markTaskComplete u t
  | ApiOp.signinOp e p => authApi.signin e p
  | ApiOp.signupApiOp e p => authApi.signup e p
  | ApiOp.signoutOp => authApi.signout
  | ApiOp.sessionOp => authApi.session
  | ApiOp.signInEmailOp e p => authApi.signInEmail e p
  | ApiOp.signUpEmailOp e p => authApi.signUpEmail e p

/-- The request actually sent: the interceptor runs on the built request
with the `token` cookie value as it stands at the moment of the call. -/
def sendRequest (cookieToken : Option String) (op : ApiOp) : HttpRequest :=
  requestInterceptor cookieToken (buildRequest op)

/-- The header the contract predicts from the cookie alone: the bearer form
of a truthy cookie value, nothing otherwise. -/
def expectedAuthHeader : Option String → Option String
  | some token => if token = "" then none else some ("Bearer " ++ token)
  | none => none

/-- Task record (src/lib/types.ts). -/
structure Task where
  id : String
  title : String
  description : Option String
  completed : Bool
  created_at : String
  updated_at : String
  user_id : String
deriving DecidableEq

/-- The dashboard status filter. -/
inductive StatusFilter where
  | all
  | completed
  | pending
deriving DecidableEq

/-- Character-list prefix test used by the substring search below. -/
def isPrefixList : List Char → List Char → Bool
  | [], _ => true
  | _ :: _, [] => false
  | a :: as, b :: bs => a == b && isPrefixList as bs

/-- Substring containment on character lists. -/
def containsSub (pat : List Char) : List Char → Bool
  | [] => pat.isEmpty
  | c :: rest => isPrefixList pat (c :: rest) || containsSub pat rest

/-- Lower-casing of a character list (an executable model of
`String.prototype.toLowerCase`, kept on lists so that concrete evaluation
reduces). -/
def lowerList (l : List Char) : List Char :=
  l.map Char.toLower

/-- Case-insensitive containment: does the lower-cased haystack contain the
lower-cased pattern. -/
def includesLower (s pat : String) : Bool :=
  containsSub (lowerList pat.toList) (lowerList s.toList)

/-- The `matchesFilter` clause of the dashboard (src/app/dashboard/page.tsx,
lines 99-102). -/
def matchesFilter (filter : StatusFilter) (task : Task) : Bool :=
  decide (filter = StatusFilter.all)
    || (decide (filter = StatusFilter.completed) && task.completed)
    || (decide (filter = StatusFilter.pending) && !task.completed)

/-- The `matchesSearch` clause of the dashboard (lines 104-106): the search
string occurs, case-insensitively, in the title, or the description is
truthy and the search string occurs, case-insensitively, in it. -/
def matchesSearch (searchQuery : String) (task : Task) : Bool :=
  includesLower task.title searchQuery
    || (match task.description with
        | some d => !(d == "") && includesLower d searchQuery
        | none => false)

/-- The `filteredTasks` computation of the dashboard (lines 98-109). -/
def filteredTasks (tasks : List Task) (filter : StatusFilter)
    (searchQuery : String) : List Task :=
  tasks.filter (fun task => matchesFilter filter task && matchesSearch searchQuery task)

/-- The rows the dashboard hands to its task table (line 200): only the
first five filtered tasks are shown. -/
def displayedTasks (tasks : List Task) (filter : StatusFilter)
    (searchQuery : String) : List Task :=
  (filteredTasks tasks filter searchQuery).take 5

/-- The session object exposed by the `useSession` shim. -/
structure ShimSession where
  id : String
  token : String
deriving DecidableEq

/-- The data object exposed by the `useSession` shim: its `user` field is
the literal `null` of the source. -/
structure ShimSessionData where
  user : Option User
  session : ShimSession
deriving DecidableEq

/-- The record returned by the `useSession` shim. -/
structure UseSessionResult where
  data : Option ShimSessionData
  isLoading : Bool
  isPending : Bool
  isAuthenticated : Bool
deriving DecidableEq

/-- The `useSession` hook of the auth shim: read the `token` cookie; if it
is truthy expose `data` with a `null` user and a session whose id and token
are both the raw cookie value, with `isAuthenticated` true; otherwise
expose `null` data and `isAuthenticated` false. `isLoading` and `isPending`
are constant `false`; no request is made and no validation happens. -/
def useSession (cookie : Option String) : UseSessionResult :=
  match cookie with
  | some token =>
      if token = "" then
        { data := none, isLoading := false, isPending := false,
          isAuthenticated := false }
      else
        { data := some { user := none, session := { id := token, token := token } },
          isLoading := false, isPending := false, isAuthenticated := true }
  | none =>
      { data := none, isLoading := false, isPending := false,
        isAuthenticated := false }

/-- A concrete user record used by the concrete evaluations below. -/
def demoUser : User :=
  { id := "1", email := "a@b.com", createdAt := none, updatedAt := none,
    created_at := none, updated_at := none }

/-- A concrete completed task whose title contains the word task. -/
def demoTask (i : String) : Task :=
  { id := i, title := "task " ++ i, description := none, completed := true,
    created_at := "", updated_at := "", user_id := "1" }

/-- Six concrete completed tasks, all matching the search string task. -/
def tasks6 : List Task :=
  [demoTask "1", demoTask "2", demoTask "3", demoTask "4", demoTask "5",
   demoTask "6"]

/-- Every request builder of the client hands the axios instance a request
with no `Authorization` header of its own. -/
theorem buildRequest_auth_none (op : ApiOp) : (buildRequest op).authorization = none := by
  cases op <;> rfl

/-- C2: for every operation of the request client and every state of the
`token` cookie at the moment of the call, the request carries
`Authorization: Bearer` followed by the cookie value exactly when the
cookie holds a truthy token, and no `Authorization` header otherwise. The
header is a function of the cookie at call time alone (the session store
state is not an input of the pipeline). -/
theorem c2_authorization_header (op : ApiOp) (cookieToken : Option String) :
    (sendRequest cookieToken op).authorization = expectedAuthHeader cookieToken := by
  cases cookieToken with
  | none =>
      simp [sendRequest, requestInterceptor, expectedAuthHeader,
        buildRequest_auth_none]
  | some t =>
      by_cases h : t = ""
      · simp [sendRequest, requestInterceptor, expectedAuthHeader, h,
          buildRequest_auth_none]
      · simp [sendRequest, requestInterceptor, expectedAuthHeader, h,
          buildRequest_auth_none]

/-- C3: when no `token` cookie is stored, the mount effect issues no
session-introspection request and ends with `isLoading` false, `user` null
and `token` null, whatever the backend would have answered. -/
theorem c3_no_cookie_no_call (resp : NetResult SessionData) :
    (initRun (initialState none) resp).sessionCalled = false
    ∧ (initRun (initialState none) resp).final.isLoading = false
    ∧ (initRun (initialState none) resp).final.user = none
    ∧ (initRun (initialState none) resp).final.token = none :=
  ⟨rfl, rfl, rfl, rfl⟩

/-- C5: for every pre-state and every sign-in response carrying a user and
a truthy access token, `login` succeeds and ends with `user` and `token`
set to the response values and the token persisted in the `token` cookie
with a 7-day expiry, `isLoading` back to false. -/
theorem c5_login_success (s : AuthState) (e p : String) (u : User)
    (tok : String) (htok : tok ≠ "") :
    (login s e p (NetResult.success { user := some u, access_token := some tok })).error = none
    ∧ (login s e p (NetResult.success { user := some u, access_token := some tok })).final.user = some u
    ∧ (login s e p (NetResult.success { user := some u, access_token := some tok })).final.token = some tok
    ∧ (login s e p (NetResult.success { user := some u, access_token := some tok })).final.cookie
        = some { value := tok, expiresDays := 7 }
    ∧ (login s e p (NetResult.success { user := some u, access_token := some tok })).final.isLoading = false := by
  have hok : signinOk { user := some u, access_token := some tok } = true := by
    simp [signinOk, truthyStr, htok]
  simp [login, hok]

/-- C5 witness: the success theorem applied at a concrete pre-state, user
and token. -/
theorem c5_login_success_witness :
    (login (initialState none) "a@b.com" "pw"
      (NetResult.success { user := some demoUser, access_token := some "tok" })).final.token
      = some "tok" :=
  (c5_login_success (initialState none) "a@b.com" "pw" demoUser "tok"
    (by decide)).2.2.1

/-- A sign-in outcome the success branch of `login` rejects: a rejected
call, or a resolved call whose payload fails the user/token guard. -/
def loginRejected : NetResult SigninData → Prop
  | NetResult.success d => signinOk d = false
  | NetResult.failure => True

/-- C6: for every failing `login` — rejected call (transport failure or
backend rejection alike) or malformed success payload — the user, the
in-memory token and the persisted cookie are unchanged, `isLoading` is back
to false, and the caller observes the one generic invalid-credentials
message, identical across all failure modes. -/
theorem c6_login_failure (s : AuthState) (e p : String)
    (resp : NetResult SigninData) (h : loginRejected resp) :
    (login s e p resp).error = some "Invalid email or password"
    ∧ (login s e p resp).final.user = s.user
    ∧ (login s e p resp).final.token = s.token
    ∧ (login s e p resp).final.cookie = s.cookie
    ∧ (login s e p resp).final.isLoading = false := by
  cases resp with
  | success d =>
      have h' : signinOk d = false := h
      simp [login, h']
  | failure => simp [login]

/-- C6 witness: the failure theorem applied at a concrete pre-state with a
rejected call. -/
theorem c6_login_failure_witness :
    (login (initialState none) "a@b.com" "pw" NetResult.failure).error
      = some "Invalid email or password" :=
  (c6_login_failure (initialState none) "a@b.com" "pw" NetResult.failure
    trivial).1

/-- C7: `logout` always ends with `user` null, in-memory `token` null and
the `token` cookie removed, whether the sign-out call resolves or rejects,
and never surfaces an error to the caller. -/
theorem c7_logout_clears (s : AuthState) (resp : NetResult Unit) :
    (logout s resp).error = none
    ∧ (logout s resp).final.user = none
    ∧ (logout s resp).final.token = none
    ∧ (logout s resp).final.cookie = none := by
  cases resp with
  | success _ => exact ⟨rfl, rfl, rfl, rfl⟩
  | failure => exact ⟨rfl, rfl, rfl, rfl⟩

/-- C9: `markTaskComplete` and `toggleComplete` with its `completed`
argument left to its default build the same request: same PATCH method,
same complete sub-resource path, same body with `completed` set to
`true`. -/
theorem c9_toggle_eq_mark (userId taskId : String) :
    taskApi.toggleComplete userId taskId = taskApi.markTaskComplete userId taskId
    ∧ (taskApi.toggleComplete userId taskId).method = "PATCH"
    ∧ (taskApi.toggleComplete userId taskId).path
        = "/api/" ++ userId ++ "/tasks/" ++ taskId ++ "/complete"
    ∧ (taskApi.toggleComplete userId taskId).body
        = some [("completed", JsonVal.jbool true)] :=
  ⟨rfl, rfl, rfl, rfl⟩

/-- C10: for every state of the `token` cookie, the `useSession` shim
reports `isLoading` false and `isPending` false, exposes no resolved user,
reports `isAuthenticated` exactly when the cookie holds a truthy token, and
exposes the raw cookie value as the session token when it does — it never
validates anything. -/
theorem c10_useSession (cookie : Option String) :
    (useSession cookie).isLoading = false
    ∧ (useSession cookie).isPending = false
    ∧ Option.bind (useSession cookie).data ShimSessionData.user = none
    ∧ (useSession cookie).isAuthenticated = truthyStr cookie
    ∧ Option.map (fun d => d.session.token) (useSession cookie).data
        = (if truthyStr cookie then cookie else none) := by
  cases cookie with
  | none => simp [useSession, truthyStr]
  | some t =>
      by_cases h : t = ""
      · simp [useSession, truthyStr, h]
      · simp [useSession, truthyStr, h]

/-- C1 counterexample: it is not true that every intermediate state of
every operation run from a reachable state has a token behind its user. A
successful `login` from the signed-out boot state passes through the state
just after `setUser`, where the user is set and the in-memory token is
still null (the source sets the user before persisting and setting the
token). -/
theorem c1_counterexample :
    ¬ (∀ (s : AuthState), ReachableQ s → ∀ (op : UserOp),
        ∀ x ∈ (runUserOp s op).trace,
          x.user.isSome = true → x.token.isSome = true) := by
  intro hclaim
  have hb : ReachableQ (initRun (initialState none) NetResult.failure).final :=
    ReachableQ.boot none NetResult.failure
  have hx := hclaim _ hb
      (UserOp.loginOp "a@b.com" "pw"
        (NetResult.success { user := some demoUser, access_token := some "tok" }))
      { user := some demoUser, token := none, isLoading := true, cookie := none }
      (by decide) (by decide)
  exact absurd hx (by decide)

/-- C1 amended: at every quiescent reachable state — every state reached
after the mount effect and after each completed login, signup or logout —
the user is non-null only if the in-memory token is non-null. (Within the
success handling of login and signup the user is set one update before the
token, which is the only deviation from the claim as stated.) -/
theorem c1_user_token_invariant (s : AuthState) (h : ReachableQ s) :
    s.user.isSome = true → s.token.isSome = true := by
  induction h with
  | boot c resp =>
      cases c with
      | none =>
          intro hu
          simp [initRun, initialState, cookieValue] at hu
      | some ck =>
          by_cases hv : ck.value = ""
          · intro hu
            simp [initRun, initialState, cookieValue, hv] at hu
          · cases resp with
            | success d =>
                cases hud : d.user.isSome with
                | false =>
                    intro hu
                    simp [initRun, initialState, cookieValue, hv, hud] at hu
                | true =>
                    intro hu
                    simp [initRun, initialState, cookieValue, hv, hud]
            | failure =>
                intro hu
                simp [initRun, initialState, cookieValue, hv] at hu
  | step s op hs ih =>
      cases op with
      | loginOp e p r =>
          cases r with
          | success d =>
              cases hok : signinOk d with
              | true =>
                  intro hu
                  simp [runUserOp, login, hok]
              | false =>
                  intro hu
                  have hu' : s.user.isSome = true := by
                    simpa [runUserOp, login, hok] using hu
                  simpa [runUserOp, login, hok] using ih hu'
          | failure =>
              intro hu
              have hu' : s.user.isSome = true := by
                simpa [runUserOp, login] using hu
              simpa [runUserOp, login] using ih hu'
      | signupOp e p r lr =>
          cases r with
          | success d =>
              cases hok : signinOk d with
              | true =>
                  intro hu
                  simp [runUserOp, signup, hok]
              | false =>
                  cases lr with
                  | success d2 =>
                      cases hok2 : signinOk d2 with
                      | true =>
                          intro hu
                          simp [runUserOp, signup, login, hok, hok2]
                      | false =>
                          intro hu
                          have hu' : s.user.isSome = true := by
                            simpa [runUserOp, signup, login, hok, hok2] using hu
                          simpa [runUserOp, signup, login, hok, hok2] using ih hu'
                  | failure =>
                      intro hu
                      have hu' : s.user.isSome = true := by
                        simpa [runUserOp, signup, login, hok] using hu
                      simpa [runUserOp, signup, login, hok] using ih hu'
          | failure =>
              intro hu
              have hu' : s.user.isSome = true := by
                simpa [runUserOp, signup] using hu
              simpa [runUserOp, signup] using ih hu'
      | logoutOp r =>
          intro hu
          cases r <;> simp [runUserOp, logout] at hu

/-- C1 witness: the invariant applied at the concrete quiescent state
reached by booting with no cookie and then logging in successfully. -/
theorem c1_user_token_invariant_witness :
    ((runUserOp (initRun (initialState none) NetResult.failure).final
        (UserOp.loginOp "a@b.com" "pw"
          (NetResult.success { user := some demoUser, access_token := some "tok" }))).final).token.isSome
      = true :=
  c1_user_token_invariant _
    (ReachableQ.step _ _ (ReachableQ.boot none NetResult.failure))
    (by decide)

/-- C4: evaluation of the mount effect at the failing input. With a stored
token cookie and a session response that does resolve to a user, the
session request is issued, yet the state in force while that request is in
flight already has `isLoading` false: the code sets `isLoading` to false
synchronously after launching the unawaited `validateToken`, where the
claim (and the spec) require it to stay true until the round trip
completes. -/
theorem c4_isLoading_false_while_pending :
    (initRun (initialState (some { value := "tok", expiresDays := 7 }))
        (NetResult.success { user := some demoUser })).sessionCalled = true
    ∧ Option.map AuthState.isLoading
        (initRun (initialState (some { value := "tok", expiresDays := 7 }))
          (NetResult.success { user := some demoUser })).pending = some false := by
  decide

/-- C8 counterexample: on the dashboard it is not true that a task is
displayed exactly when it matches the completed filter and the search
string: with six completed tasks all matching the search string task, the
sixth matches both conditions but is not displayed, because the dashboard
hands its table only the first five filtered tasks. -/
theorem c8_counterexample :
    ¬ (∀ (tasks : List Task) (searchQuery : String) (t : Task), t ∈ tasks →
        (t ∈ displayedTasks tasks StatusFilter.completed searchQuery
          ↔ (matchesFilter StatusFilter.completed t = true
              ∧ matchesSearch searchQuery t = true))) := by
  intro hclaim
  have h6 := (hclaim tasks6 "task" (demoTask "6") (by decide)).mpr (by decide)
  exact absurd h6 (by decide)

/-- C8 amended: every task the dashboard displays matches the completed
filter and the case-insensitive search over title and description; the
filtered list contains exactly the tasks of the input list matching both;
and what is displayed is the first five elements of that filtered list (so
a matching task beyond the first five is not displayed). -/
theorem c8_filter_search (tasks : List Task) (searchQuery : String) (t : Task) :
    (t ∈ displayedTasks tasks StatusFilter.completed searchQuery →
      t.completed = true ∧ matchesSearch searchQuery t = true)
    ∧ (t ∈ filteredTasks tasks StatusFilter.completed searchQuery
        ↔ t ∈ tasks ∧ t.completed = true ∧ matchesSearch searchQuery t = true)
    ∧ displayedTasks tasks StatusFilter.completed searchQuery
        = (filteredTasks tasks StatusFilter.completed searchQuery).take 5 := by
  have hfc : ∀ x : Task, matchesFilter StatusFilter.completed x = x.completed := by
    intro x
    simp [matchesFilter]
  refine ⟨?_, ?_, rfl⟩
  · intro ht
    have hf : t ∈ filteredTasks tasks StatusFilter.completed searchQuery :=
      List.take_subset _ _ ht
    have hcond := (List.mem_filter.mp hf).2
    rw [Bool.and_eq_true, hfc] at hcond
    exact hcond
  · constructor
    · intro hf
      have h2 := List.mem_filter.mp hf
      have hcond := h2.2
      rw [Bool.and_eq_true, hfc] at hcond
      exact ⟨h2.1, hcond.1, hcond.2⟩
    · intro hall
      refine List.mem_filter.mpr ⟨hall.1, ?_⟩
      rw [Bool.and_eq_true, hfc]
      exact ⟨hall.2.1, hall.2.2⟩

/-- C8 witness: the amended theorem applied to a concrete displayed task,
its displayed-membership hypothesis discharged by evaluation. -/
theorem c8_filter_search_witness :
    (demoTask "1").completed = true ∧ matchesSearch "task" (demoTask "1") = true :=
  (c8_filter_search tasks6 "task" (demoTask "1")).1 (by decide)

end TodoApp
